import Mathlib

/-!
Verification of the AIS NMEA parser and track reconstructor
(`mana/examples/ais_parser.py`): 6-bit armored payload decoding,
position-report and static/voyage bit-field decoding, dead-reckoning
estimation, and per-vessel track reconstruction.

Bitstreams are modelled as `List Bool` (most significant bit first, as
produced by Python's `format(val, '06b')` concatenation); exact rational
arithmetic stands in for Python floats in the decoders, and real
arithmetic in the trigonometric dead-reckoning estimator.
-/

namespace AIS

/-- A bitstream: the `binary` string of `_ais_to_binary`, one `Bool` per
`'0'`/`'1'` character, most significant bit first. -/
abbrev Bits := List Bool

/-- `int(s, 2)`: interpret a bit list, most significant bit first. -/
def bitsToNat (bs : Bits) : ℕ :=
  bs.foldl (fun a b => 2 * a + (if b then 1 else 0)) 0

/-- `format(n, '0wb')` for `n < 2 ^ w`: the `w`-bit binary representation,
most significant bit first. -/
def natToBits (w n : ℕ) : Bits :=
  (List.range w).map (fun i => n.testBit (w - 1 - i))

/-- `binary[a:b]` read with `int(_, 2)`: the field of the bitstream between
bit offsets `a` (inclusive) and `b` (exclusive). -/
def field (bs : Bits) (a b : ℕ) : ℕ :=
  bitsToNat ((bs.drop a).take (b - a))

/-- The character-to-6-bit-value mapping of `_ais_to_binary`:
`'@'→0`, `'A'..'W'→1..23`, `'a'..'w'→33..55`, `'0'..'9'→48..57`;
any other character yields `none` (skipped). -/
def charVal (c : Char) : Option ℕ :=
  if c = '@' then some 0
  else if 'A' ≤ c ∧ c ≤ 'W' then some (c.toNat - 'A'.toNat + 1)
  else if 'a' ≤ c ∧ c ≤ 'w' then some (c.toNat - 'a'.toNat + 33)
  else if '0' ≤ c ∧ c ≤ '9' then some (c.toNat - '0'.toNat + 48)
  else none

/-- `format(val, '06b')`: six bits, most significant first. -/
def toBits6 (v : ℕ) : Bits := natToBits 6 v

/-- `_ais_to_binary`: each payload character contributes six bits via
`charVal`; characters outside the four ranges are skipped. -/
def aisToBinary (s : String) : Bits :=
  s.toList.foldl
    (fun acc c =>
      acc ++ (match charVal c with
              | some v => toBits6 v
              | none => []))
    []

/-- The decoded position report (message types 1/2/3), dict of
`_parse_position_report`.  The code only ever returns it with both
coordinates present, but the fields are optional in the data model. -/
structure PositionReport where
  timestamp : ℚ
  mmsi : ℕ
  message_type : ℕ
  nav_status : ℕ
  rot : ℕ
  sog : ℚ
  position_accuracy : ℕ
  lat : Option ℚ
  lon : Option ℚ
  cog : ℚ
  true_heading : ℕ
  timestamp_sec : ℕ
  deriving DecidableEq, Repr

/-- Latitude conversion of `_parse_position_report` (lines 156-161):
sentinel `0x3412140` is absent; otherwise `raw / 600000`, minus 180 when
the scaled value exceeds 90. -/
def decodeLat (raw : ℕ) : Option ℚ :=
  if raw = 0x3412140 then none
  else
    let l : ℚ := (raw : ℚ) / 600000
    some (if l > 90 then l - 180 else l)

/-- Longitude conversion of `_parse_position_report` (lines 163-168):
sentinel `0x6791AC0` is absent; otherwise `raw / 600000`, minus 360 when
the scaled value exceeds 180. -/
def decodeLon (raw : ℕ) : Option ℚ :=
  if raw = 0x6791AC0 then none
  else
    let l : ℚ := (raw : ℚ) / 600000
    some (if l > 180 then l - 360 else l)

/-- `_parse_position_report`: rejects bitstreams shorter than 168 bits,
extracts the fixed bit-ranges, converts the coordinates, and rejects the
whole report when either coordinate is absent or out of range. -/
def parsePositionReport (bs : Bits) (timestamp : ℚ) (msgType : ℕ) :
    Option PositionReport :=
  if bs.length < 168 then none
  else
    let mmsi := field bs 8 38
    let nav_status := field bs 38 42
    let rot := field bs 42 50
    let sog : ℚ := (field bs 50 60 : ℚ) / 10
    let position_accuracy := field bs 60 61
    let lonRaw := field bs 61 89
    let latRaw := field bs 89 116
    let cog : ℚ := (field bs 116 128 : ℚ) / 10
    let true_heading := field bs 128 137
    let timestamp_sec := field bs 137 143
    match decodeLat latRaw, decodeLon lonRaw with
    | some lat, some lon =>
        if |lat| > 90 ∨ |lon| > 180 then none
        else some
          { timestamp := timestamp
            mmsi := mmsi
            message_type := msgType
            nav_status := nav_status
            rot := rot
            sog := sog
            position_accuracy := position_accuracy
            lat := some lat
            lon := some lon
            cog := cog
            true_heading := true_heading
            timestamp_sec := timestamp_sec }
    | _, _ => none

/-- One step of the `_decode_text` loop body: the value-to-character
branches in source order (`<= 26` letters, `<= 36` digits, then the dead
`== 32` space branch, then the five symbol cases); other values are
skipped. -/
def textChar (v : ℕ) : Option Char :=
  if v ≤ 26 then some (Char.ofNat (65 + v - 1))
  else if v ≤ 36 then some (Char.ofNat (48 + v - 27))
  else if v = 32 then some ' '
  else if v = 37 then some '@'
  else if v = 38 then some '['
  else if v = 39 then some '\\'
  else if v = 40 then some ']'
  else if v = 41 then some '^'
  else if v = 42 then some '_'
  else none

/-- The character-accumulation loop of `_decode_text`: successive 6-bit
groups left to right, an incomplete final group is dropped, a group of
value 0 terminates the scan.  Structured on a fuel counter that bounds the
number of groups; `decodeTextList` supplies fuel `bs.length`, which always
exceeds the group count, so the fuel never runs out before the length
check does. -/
def decodeTextGo (k : ℕ) (bs : Bits) : List Char :=
  match k with
  | 0 => []
  | k + 1 =>
      if bs.length < 6 then []
      else
        let v := bitsToNat (bs.take 6)
        if v = 0 then []
        else
          (match textChar v with
           | some c => [c]
           | none => []) ++ decodeTextGo k (bs.drop 6)

/-- The `_decode_text` scan over the whole bitstream. -/
def decodeTextList (bs : Bits) : List Char :=
  decodeTextGo bs.length bs

/-- Python `str.strip()`: remove leading and trailing whitespace. -/
def stripChars (cs : List Char) : List Char :=
  ((cs.dropWhile Char.isWhitespace).reverse.dropWhile Char.isWhitespace).reverse

/-- `_decode_text`: decode the 6-bit groups and strip the result. -/
def decodeText (bs : Bits) : String :=
  String.mk (stripChars (decodeTextList bs))

/-- The `ship_types` lookup table of `AISParser.__init__`, exactly the
keys present in the source dictionary. -/
def ship_types (n : ℕ) : Option String :=
  match n with
  | 20 => some "Wing in ground (WIG)"
  | 21 => some "Wing in ground (WIG)"
  | 22 => some "Wing in ground (WIG)"
  | 23 => some "Wing in ground (WIG)"
  | 30 => some "Fishing"
  | 31 => some "Towing"
  | 32 => some "Towing (large)"
  | 33 => some "Dredging or underwater ops"
  | 34 => some "Diving ops"
  | 35 => some "Military ops"
  | 36 => some "Sailing"
  | 37 => some "Pleasure craft"
  | 50 => some "Pilot vessel"
  | 51 => some "Search and rescue"
  | 52 => some "Tug"
  | 53 => some "Port tender"
  | 54 => some "Anti-pollution equipment"
  | 55 => some "Law enforcement"
  | 56 => some "Spare - local vessel"
  | 57 => some "Spare - local vessel"
  | 58 => some "Medical transport"
  | 59 => some "Non-combatant ship"
  | 60 => some "Passenger"
  | 61 => some "Passenger"
  | 62 => some "Passenger"
  | 63 => some "Passenger"
  | 64 => some "Passenger"
  | 69 => some "Passenger"
  | 70 => some "Cargo"
  | 71 => some "Cargo"
  | 72 => some "Cargo"
  | 73 => some "Cargo"
  | 74 => some "Cargo"
  | 75 => some "Cargo"
  | 76 => some "Cargo"
  | 77 => some "Cargo"
  | 78 => some "Cargo"
  | 79 => some "Cargo"
  | 80 => some "Tanker"
  | 81 => some "Tanker"
  | 82 => some "Tanker"
  | 83 => some "Tanker"
  | 84 => some "Tanker"
  | 85 => some "Tanker"
  | 86 => some "Tanker"
  | 87 => some "Tanker"
  | 88 => some "Tanker"
  | 89 => some "Tanker"
  | 90 => some "Other"
  | _ => none

/-- `self.ship_types.get(ship_type, f"Unknown ({ship_type})")`. -/
def shipTypeName (n : ℕ) : String :=
  (ship_types n).getD ("Unknown (" ++ toString n ++ ")")

/-- The decoded static/voyage report (message type 5), dict of
`_parse_static_voyage_data`. -/
structure StaticVoyage where
  timestamp : ℚ
  mmsi : ℕ
  ais_version : ℕ
  imo : ℕ
  call_sign : String
  vessel_name : String
  ship_type : ℕ
  ship_type_name : String
  dim_to_bow : ℕ
  dim_to_stern : ℕ
  dim_to_port : ℕ
  dim_to_starboard : ℕ
  eta_month : ℕ
  eta_day : ℕ
  eta_hour : ℕ
  eta_minute : ℕ
  draught : ℚ
  destination : String
  dte : ℕ
  spare : ℕ
  deriving DecidableEq, Repr

/-- `_parse_static_voyage_data`: rejects bitstreams shorter than 424 bits
and extracts the fixed bit-ranges, including the two text fields and the
ship-type name lookup. -/
def parseStaticVoyage (bs : Bits) (timestamp : ℚ) : Option StaticVoyage :=
  if bs.length < 424 then none
  else
    let ship_type := field bs 232 240
    some
      { timestamp := timestamp
        mmsi := field bs 8 38
        ais_version := field bs 38 40
        imo := field bs 40 70
        call_sign := decodeText ((bs.drop 70).take 42)
        vessel_name := decodeText ((bs.drop 112).take 120)
        ship_type := ship_type
        ship_type_name := shipTypeName ship_type
        dim_to_bow := field bs 240 249
        dim_to_stern := field bs 249 258
        dim_to_port := field bs 258 264
        dim_to_starboard := field bs 264 270
        eta_month := field bs 270 274
        eta_day := field bs 274 279
        eta_hour := field bs 279 284
        eta_minute := field bs 284 290
        draught := (field bs 290 298 : ℚ) / 10
        destination := decodeText ((bs.drop 298).take 124)
        dte := field bs 422 423
        spare := field bs 423 424 }

/-- The tagged union of decoded messages returned by `parse_ais_message`. -/
inductive Parsed where
  | pos (r : PositionReport)
  | static (s : StaticVoyage)
  deriving DecidableEq, Repr

/-- `parse_ais_message`: armor-decode the payload, reject an empty
bitstream, read the leading 6 bits as the message kind, and dispatch to
the matching field decoder (1/2/3 position, 5 static, otherwise nothing). -/
def parseAisMessage (aisData : String) (timestamp : ℚ) : Option Parsed :=
  let binary := aisToBinary aisData
  if binary = [] then none
  else
    let messageType := bitsToNat (binary.take 6)
    if messageType = 1 ∨ messageType = 2 ∨ messageType = 3 then
      (parsePositionReport binary timestamp messageType).map Parsed.pos
    else if messageType = 5 then
      (parseStaticVoyage binary timestamp).map Parsed.static
    else none

/-- `math.radians`. -/
noncomputable def radians (d : ℝ) : ℝ := d * Real.pi / 180

/-- `math.degrees`. -/
noncomputable def degrees (r : ℝ) : ℝ := r * 180 / Real.pi

/-- `DeadReckoningCalculator.EARTH_RADIUS_KM`. -/
def EARTH_RADIUS_KM : ℝ := 6371.0

/-- `math.atan2 y x`, modelled as the argument of the complex number
`x + y i` (range `(-π, π]`, agreeing with `atan2` away from signed
zeros). -/
noncomputable def atan2 (y x : ℝ) : ℝ := Complex.arg ⟨x, y⟩

/-- `DeadReckoningCalculator._haversine_calculate`: great-circle
destination point from a start, a distance and a bearing, Earth radius
6371 km. -/
noncomputable def haversineCalculate (lat1 lon1 distance_km bearing_deg : ℝ) :
    ℝ × ℝ :=
  let lat1_rad := radians lat1
  let lon1_rad := radians lon1
  let bearing_rad := radians bearing_deg
  let angular_distance := distance_km / EARTH_RADIUS_KM
  let lat2_rad := Real.arcsin
    (Real.sin lat1_rad * Real.cos angular_distance +
      Real.cos lat1_rad * Real.sin angular_distance * Real.cos bearing_rad)
  let lon2_rad := lon1_rad + atan2
    (Real.sin bearing_rad * Real.sin angular_distance * Real.cos lat1_rad)
    (Real.cos angular_distance - Real.sin lat1_rad * Real.sin lat2_rad)
  (degrees lat2_rad, degrees lon2_rad)

/-- `DeadReckoningCalculator.calculate_position`: distance from speed and
elapsed time, then a flat-earth step for distances under 100 km and the
great-circle formula otherwise. -/
noncomputable def calculate_position (lat1 lon1 sog cog time_diff_seconds : ℝ) :
    ℝ × ℝ :=
  let speed_km_s := sog * 1.852 / 3600.0
  let distance_km := speed_km_s * time_diff_seconds
  let lat1_rad := radians lat1
  let cog_rad := radians cog
  if distance_km < 100 then
    let lat_diff := distance_km * Real.cos cog_rad / 111.0
    let lon_diff := distance_km * Real.sin cog_rad / (111.0 * Real.cos lat1_rad)
    (lat1 + lat_diff, lon1 + lon_diff)
  else
    haversineCalculate lat1 lon1 distance_km cog

/-- One `ship_last_positions[mmsi]` entry of `process_ais_log_file`:
last known coordinates (possibly dead-reckoned estimates, hence real),
speed/course, and the report timestamp. -/
structure LastPos where
  lat : ℝ
  lon : ℝ
  sog : ℚ
  cog : ℚ
  timestamp : ℚ

/-- One output row appended to `ship_data` in `process_ais_log_file`. -/
structure TrackPoint where
  timestamp : ℚ
  mmsi : ℕ
  ship_type : ℕ
  ship_type_name : Option String
  vessel_name : Option String
  lat : ℝ
  lon : ℝ
  sog : ℚ
  cog : ℚ
  nav_status : ℕ
  position_accuracy : ℕ
  true_heading : ℕ
  is_dead_reckoned : Bool

/-- The mutable state of `process_ais_log_file`: `ship_static_data` and
`ship_last_positions`, both keyed by MMSI. -/
structure TrackState where
  staticData : ℕ → Option StaticVoyage
  lastPos : ℕ → Option LastPos

/-- The empty maps at the start of `process_ais_log_file`. -/
def initState : TrackState :=
  { staticData := fun _ => none, lastPos := fun _ => none }

/-- The per-message body of the `process_ais_log_file` loop: a type-5
message replaces the stored static data; a position report with both
coordinates emits a real fix and stores it; a report missing a coordinate
is dead-reckoned when a last position exists and `0 < elapsed < 3600`,
and is dropped (state untouched) otherwise. -/
noncomputable def trackStep (st : TrackState) (p : Parsed) :
    TrackState × Option TrackPoint :=
  match p with
  | .static s =>
      ({ st with
          staticData := fun m => if m = s.mmsi then some s else st.staticData m },
        none)
  | .pos r =>
      let sd := st.staticData r.mmsi
      match r.lat, r.lon with
      | some lat, some lon =>
          ({ st with
              lastPos := fun m =>
                if m = r.mmsi then
                  some { lat := (lat : ℝ), lon := (lon : ℝ), sog := r.sog,
                         cog := r.cog, timestamp := r.timestamp }
                else st.lastPos m },
            some
              { timestamp := r.timestamp
                mmsi := r.mmsi
                ship_type := (sd.map StaticVoyage.ship_type).getD 0
                ship_type_name := sd.map StaticVoyage.ship_type_name
                vessel_name := sd.map StaticVoyage.vessel_name
                lat := (lat : ℝ)
                lon := (lon : ℝ)
                sog := r.sog
                cog := r.cog
                nav_status := r.nav_status
                position_accuracy := r.position_accuracy
                true_heading := r.true_heading
                is_dead_reckoned := false })
      | _, _ =>
          match st.lastPos r.mmsi with
          | none => (st, none)
          | some lastP =>
              let time_diff := r.timestamp - lastP.timestamp
              if 0 < time_diff ∧ time_diff < 3600 then
                let newPos := calculate_position lastP.lat lastP.lon
                  (lastP.sog : ℝ) (lastP.cog : ℝ) (time_diff : ℝ)
                let newSog := if r.sog > 0 then r.sog else lastP.sog
                let newCog := if r.cog ≥ 0 then r.cog else lastP.cog
                ({ st with
                    lastPos := fun m =>
                      if m = r.mmsi then
                        some { lat := newPos.1, lon := newPos.2, sog := newSog,
                               cog := newCog, timestamp := r.timestamp }
                      else st.lastPos m },
                  some
                    { timestamp := r.timestamp
                      mmsi := r.mmsi
                      ship_type := (sd.map StaticVoyage.ship_type).getD 0
                      ship_type_name := sd.map StaticVoyage.ship_type_name
                      vessel_name := sd.map StaticVoyage.vessel_name
                      lat := newPos.1
                      lon := newPos.2
                      sog := newSog
                      cog := newCog
                      nav_status := r.nav_status
                      position_accuracy := r.position_accuracy
                      true_heading := r.true_heading
                      is_dead_reckoned := true })
              else (st, none)

/-- One line of the `process_ais_log_file` loop, over an already-extracted
input: the armored payload and its capture timestamp (the `c:<digits>`
epoch).  Unparseable inputs contribute nothing; parsed messages run
through `trackStep` and any emitted track point is appended. -/
noncomputable def logStep (acc : TrackState × List TrackPoint)
    (inp : String × ℚ) : TrackState × List TrackPoint :=
  match parseAisMessage inp.1 inp.2 with
  | none => acc
  | some p =>
      let step := trackStep acc.1 p
      (step.1, acc.2 ++ step.2.toList)

/-- The collected `ship_data` of `process_ais_log_file`. -/
noncomputable def processAisLog (inputs : List (String × ℚ)) : List TrackPoint :=
  (inputs.foldl logStep (initState, [])).2

/-! ### Spec-side definitions and concrete fixtures -/

/-- Modelled from the spec: the armored-character encoder (6-bit value to
payload character), the inverse of the documented decode mapping `'@'→0`,
`'A'..'W'→1..23`, `'a'..'w'→33..55`, `'0'..'9'→48..57`.  The repository
contains no encoder; this reconstructs one from the spec's mapping, with
the ranges tried in the order the spec lists them (values 48–55 lie in
both the `'a'..'w'` and `'0'..'9'` ranges and take the former). -/
def encodeChar (v : ℕ) : Char :=
  if v = 0 then '@'
  else if 1 ≤ v ∧ v ≤ 23 then Char.ofNat (64 + v)
  else if 33 ≤ v ∧ v ≤ 55 then Char.ofNat (97 + (v - 33))
  else if 48 ≤ v ∧ v ≤ 57 then Char.ofNat (48 + (v - 48))
  else '@'

/-- The characters of the four valid armored ASCII sub-ranges:
`'@'`, `'A'..'W'`, `'a'..'w'`, `'0'..'9'`. -/
def armorChars : List Char :=
  '@' :: ((List.range 23).map (fun i => Char.ofNat (65 + i)) ++
    (List.range 23).map (fun i => Char.ofNat (97 + i)) ++
    (List.range 10).map (fun i => Char.ofNat (48 + i)))

/-- The 6-bit values reachable from the four ranges:
`{0} ∪ [1,23] ∪ [33,55] ∪ [48,57]`. -/
def armorValues : List ℕ :=
  0 :: ((List.range 23).map (· + 1) ++ (List.range 23).map (· + 33) ++
    (List.range 10).map (· + 48))

/-- The text-decoding alphabet as the amended spec words it: values 1–26
are `'A'..'Z'`, 27–36 are `'0'..'9'` (so 32 is the digit `'5'`; the
source's space branch is dead code), 37–42 are the six symbols, every
other value is skipped. -/
def textCharSpec (v : ℕ) : Option Char :=
  if 1 ≤ v ∧ v ≤ 26 then some (Char.ofNat (65 + (v - 1)))
  else if 27 ≤ v ∧ v ≤ 36 then some (Char.ofNat (48 + (v - 27)))
  else if v = 37 then some '@'
  else if v = 38 then some '['
  else if v = 39 then some '\\'
  else if v = 40 then some ']'
  else if v = 41 then some '^'
  else if v = 42 then some '_'
  else none

/-- The spec-worded scan: successive 6-bit groups left to right, stopping
at the first group of value 0, mapping through the amended alphabet. -/
def decodeTextSpecGo (k : ℕ) (bs : Bits) : List Char :=
  match k with
  | 0 => []
  | k + 1 =>
      if bs.length < 6 then []
      else
        let v := bitsToNat (bs.take 6)
        if v = 0 then []
        else
          (match textCharSpec v with
           | some c => [c]
           | none => []) ++ decodeTextSpecGo k (bs.drop 6)

/-- Right-trim of trailing whitespace only. -/
def rstripChars (cs : List Char) : List Char :=
  (cs.reverse.dropWhile Char.isWhitespace).reverse

/-- The text decoder as the amended spec words it: scan the 6-bit groups
and right-trim the result of trailing whitespace. -/
def decodeTextSpec (bs : Bits) : String :=
  String.mk (rstripChars (decodeTextSpecGo bs.length bs))

/-- The ship-type resolution as the amended claim words it: the fixed
table covers 20–23 (WIG), 30 (fishing), 31–32 (towing), 33 (dredging),
34 (diving), 35 (military), 36 (sailing), 37 (pleasure craft), 50–59
(special services), 60–64 and 69 (passenger), 70–79 (cargo), 80–89
(tanker) and 90 (other); every other code — including 65–68 — renders as
`Unknown (<code>)`. -/
def shipTypeTableProp (n : ℕ) : Prop :=
  ((20 ≤ n ∧ n ≤ 23) → shipTypeName n = "Wing in ground (WIG)") ∧
  (n = 30 → shipTypeName n = "Fishing") ∧
  (n = 31 → shipTypeName n = "Towing") ∧
  (n = 32 → shipTypeName n = "Towing (large)") ∧
  (n = 33 → shipTypeName n = "Dredging or underwater ops") ∧
  (n = 34 → shipTypeName n = "Diving ops") ∧
  (n = 35 → shipTypeName n = "Military ops") ∧
  (n = 36 → shipTypeName n = "Sailing") ∧
  (n = 37 → shipTypeName n = "Pleasure craft") ∧
  ((50 ≤ n ∧ n ≤ 59) → (ship_types n).isSome) ∧
  (((60 ≤ n ∧ n ≤ 64) ∨ n = 69) → shipTypeName n = "Passenger") ∧
  ((65 ≤ n ∧ n ≤ 68) → shipTypeName n = "Unknown (" ++ toString n ++ ")") ∧
  ((70 ≤ n ∧ n ≤ 79) → shipTypeName n = "Cargo") ∧
  ((80 ≤ n ∧ n ≤ 89) → shipTypeName n = "Tanker") ∧
  (n = 90 → shipTypeName n = "Other") ∧
  (ship_types n = none → shipTypeName n = "Unknown (" ++ toString n ++ ")")

instance : DecidablePred shipTypeTableProp := fun n => by
  unfold shipTypeTableProp
  infer_instance

/-- The fixed regression payload of `debug_ais.py` and the format comment
at `ais_parser.py` line 72. -/
def regressionPayload : String := "24SR`F0000QPgE0OoVBUUrUj0@R9"

/-- A 168-bit position-report bitstream whose latitude field
`[89,116)` holds the sentinel `0x3412140` and all other bits are zero
(so the longitude decodes to `0°`, well in range). -/
def c1Bits : Bits := natToBits 168 (0x3412140 * 2 ^ 52)

/-- The dead-reckoning trigger condition of the track reconstructor: a
stored last position for the report's MMSI whose elapsed time to the
report lies strictly between 0 and 3600 seconds. -/
def missingFixCond (st : TrackState) (r : PositionReport) : Prop :=
  ∃ lp, st.lastPos r.mmsi = some lp ∧
    0 < r.timestamp - lp.timestamp ∧ r.timestamp - lp.timestamp < 3600

/-- What the track reconstructor does with a position report lacking a
usable fix: a dead-reckoned point is emitted exactly when
`missingFixCond` holds; otherwise the report is dropped with the state
untouched; and when it holds, the stored entry becomes the estimated
position with carried-forward speed/course and the report's timestamp. -/
def missingFixBehavior (st : TrackState) (r : PositionReport) : Prop :=
  ((∃ pt, (trackStep st (.pos r)).2 = some pt ∧ pt.is_dead_reckoned = true) ↔
      missingFixCond st r) ∧
  (¬ missingFixCond st r → trackStep st (.pos r) = (st, none)) ∧
  (∀ lp, st.lastPos r.mmsi = some lp →
    0 < r.timestamp - lp.timestamp → r.timestamp - lp.timestamp < 3600 →
    (trackStep st (.pos r)).1.lastPos r.mmsi =
      some { lat := (calculate_position lp.lat lp.lon (lp.sog : ℝ) (lp.cog : ℝ)
                ((r.timestamp - lp.timestamp : ℚ) : ℝ)).1
             lon := (calculate_position lp.lat lp.lon (lp.sog : ℝ) (lp.cog : ℝ)
                ((r.timestamp - lp.timestamp : ℚ) : ℝ)).2
             sog := if r.sog > 0 then r.sog else lp.sog
             cog := if r.cog ≥ 0 then r.cog else lp.cog
             timestamp := r.timestamp })

/-- First report of the three-report scenario: a full fix at `t0 = 0`. -/
def c3r0 : PositionReport :=
  { timestamp := 0, mmsi := 999, message_type := 1, nav_status := 0,
    rot := 0, sog := 5, position_accuracy := 0, lat := some 10,
    lon := some 20, cog := 45, true_heading := 0, timestamp_sec := 0 }

/-- Second report: missing fix at `t1 = +300 s`. -/
def c3r1 : PositionReport :=
  { c3r0 with timestamp := 300, lat := none, lon := none }

/-- Third report: missing fix at `t2 = +4000 s`. -/
def c3r2 : PositionReport :=
  { c3r0 with timestamp := 4000, lat := none, lon := none }

/-- State after processing the full fix `c3r0` from the empty state. -/
noncomputable def c3s0 : TrackState := (trackStep initState (.pos c3r0)).1

/-- State after the dead-reckoned report `c3r1`. -/
noncomputable def c3s1 : TrackState := (trackStep c3s0 (.pos c3r1)).1

/-- The three-report scenario: `t1` yields a dead-reckoned point, `t2`
yields nothing and leaves the state unchanged. -/
def c3Scenario : Prop :=
  (∃ pt, (trackStep c3s0 (.pos c3r1)).2 = some pt ∧
    pt.is_dead_reckoned = true) ∧
  trackStep c3s1 (.pos c3r2) = (c3s1, none)

/-! ### Claim theorems -/

/-- C6: a position-report bitstream shorter than 168 bits and a
static/voyage bitstream shorter than 424 bits always yield no record,
regardless of the bit content. -/
theorem truncated_bitstreams_yield_no_record :
    (∀ (bs : Bits) (t : ℚ) (mt : ℕ), bs.length < 168 →
      parsePositionReport bs t mt = none) ∧
    (∀ (bs : Bits) (t : ℚ), bs.length < 424 →
      parseStaticVoyage bs t = none) := by
  constructor
  · intro bs t mt h
    simp [parsePositionReport, h]
  · intro bs t h
    simp [parseStaticVoyage, h]

theorem truncated_bitstreams_yield_no_record_witness :
    ([true] : Bits).length < 168 ∧ parsePositionReport [true] 0 1 = none ∧
    ([true] : Bits).length < 424 ∧ parseStaticVoyage [true] 0 = none :=
  ⟨by decide, truncated_bitstreams_yield_no_record.1 [true] 0 1 (by decide),
    by decide, truncated_bitstreams_yield_no_record.2 [true] 0 (by decide)⟩

/-- C8: the sentinel raw latitude `0x3412140` and raw longitude
`0x6791AC0` decode to an absent coordinate regardless of everything else;
every non-sentinel raw value decodes to `raw/600000` degrees, minus 360
for a longitude above 180° and minus 180 for a latitude above 90°. -/
theorem coordinate_sentinels_and_scaling :
    decodeLat 0x3412140 = none ∧ decodeLon 0x6791AC0 = none ∧
    (∀ raw : ℕ, raw ≠ 0x3412140 →
      decodeLat raw = some (if (raw : ℚ) / 600000 > 90
        then (raw : ℚ) / 600000 - 180 else (raw : ℚ) / 600000)) ∧
    (∀ raw : ℕ, raw ≠ 0x6791AC0 →
      decodeLon raw = some (if (raw : ℚ) / 600000 > 180
        then (raw : ℚ) / 600000 - 360 else (raw : ℚ) / 600000)) := by
  refine ⟨by decide, by decide, ?_, ?_⟩
  · intro raw h
    simp [decodeLat, h]
  · intro raw h
    simp [decodeLon, h]

theorem coordinate_sentinels_and_scaling_witness :
    (600001 : ℕ) ≠ 0x3412140 ∧
    decodeLat 600001 = some (if (600001 : ℚ) / 600000 > 90
      then (600001 : ℚ) / 600000 - 180 else (600001 : ℚ) / 600000) ∧
    (600001 : ℕ) ≠ 0x6791AC0 ∧
    decodeLon 600001 = some (if (600001 : ℚ) / 600000 > 180
      then (600001 : ℚ) / 600000 - 360 else (600001 : ℚ) / 600000) :=
  ⟨by decide, coordinate_sentinels_and_scaling.2.2.1 600001 (by decide),
    by decide, coordinate_sentinels_and_scaling.2.2.2 600001 (by decide)⟩

set_option maxRecDepth 4000 in
/-- C4: the fixed regression payload does NOT decode to a message of kind
1/2/3 — the armor table maps its leading `'2'` to value 50, so the
dispatcher returns no record at all, and the skipped backtick leaves only
162 bits.  This evaluates the code at the claim's failing input. -/
theorem regression_payload_produces_no_record :
    parseAisMessage regressionPayload 1758574798 = none ∧
    bitsToNat ((aisToBinary regressionPayload).take 6) = 50 ∧
    (aisToBinary regressionPayload).length = 162 := by decide

/-- C10 counterexample: ship-type code 65 lies in the claim's
"every code 60–69 (passenger)" range but is absent from the source table
and renders as an unknown code. -/
theorem ship_type_65_renders_unknown :
    shipTypeName 65 = "Unknown (65)" ∧ shipTypeName 65 ≠ "Passenger" := by
  decide

set_option maxRecDepth 4000 in
/-- C10 (amended): for every 8-bit ship-type code the display name
resolves per the fixed table — 20–23 WIG, 30–37 individual types, 50–59
special services, 60–64 and 69 passenger, 70–79 cargo, 80–89 tanker, 90
other — and every code outside the table (including 65–68) renders as
`Unknown (<code>)`. -/
theorem ship_type_table_resolution :
    ∀ n : ℕ, n < 256 → shipTypeTableProp n := by decide

theorem ship_type_table_resolution_witness :
    (70 : ℕ) < 256 ∧ shipTypeTableProp 70 :=
  ⟨by decide, ship_type_table_resolution 70 (by decide)⟩

/-- C5: for every character of the four armored sub-ranges, decoding to
its 6-bit value and re-encoding recovers the same value, and the encoder
composed with the decoder is the identity on the reachable values
`{0} ∪ [1,23] ∪ [33,55] ∪ [48,57]`. -/
theorem armor_roundtrip_identity :
    (∀ c ∈ armorChars, (charVal c).isSome ∧
      (charVal c).bind (fun v => charVal (encodeChar v)) = charVal c) ∧
    (∀ v ∈ armorValues, charVal (encodeChar v) = some v) := by decide

theorem armor_roundtrip_identity_witness :
    ('W' ∈ armorChars ∧ (charVal 'W').isSome ∧
      (charVal 'W').bind (fun v => charVal (encodeChar v)) = charVal 'W') ∧
    ((48 : ℕ) ∈ armorValues ∧ charVal (encodeChar 48) = some 48) :=
  ⟨⟨by decide, armor_roundtrip_identity.1 'W' (by decide)⟩,
    ⟨by decide, armor_roundtrip_identity.2 48 (by decide)⟩⟩

/-- C7 counterexample: the 6-bit text value 32 decodes to the digit `'5'`
(the `<= 36` digit branch fires first), not to a space as the claim
states. -/
theorem text_value_32_decodes_to_digit_five :
    decodeText (natToBits 6 32) = "5" ∧ textChar 32 = some '5' ∧
    textChar 32 ≠ some ' ' := by decide

lemma textChar_eq_spec (v : ℕ) (hv : 1 ≤ v) : textChar v = textCharSpec v := by
  by_cases h : v ≤ 42
  · interval_cases v <;> decide
  · simp only [textChar, textCharSpec,
      if_neg (by omega : ¬ v ≤ 26), if_neg (by omega : ¬ v ≤ 36),
      if_neg (by omega : ¬ v = 32), if_neg (by omega : ¬ v = 37),
      if_neg (by omega : ¬ v = 38), if_neg (by omega : ¬ v = 39),
      if_neg (by omega : ¬ v = 40), if_neg (by omega : ¬ v = 41),
      if_neg (by omega : ¬ v = 42), if_neg (by omega : ¬ (1 ≤ v ∧ v ≤ 26)),
      if_neg (by omega : ¬ (27 ≤ v ∧ v ≤ 36))]

lemma decodeTextGo_eq_spec (k : ℕ) : ∀ bs : Bits,
    decodeTextGo k bs = decodeTextSpecGo k bs := by
  induction k with
  | zero => intro bs; rfl
  | succ k ih =>
      intro bs
      simp only [decodeTextGo, decodeTextSpecGo]
      by_cases h6 : bs.length < 6
      · simp [h6]
      · rw [if_neg h6, if_neg h6]
        by_cases h0 : bitsToNat (bs.take 6) = 0
        · simp [h0]
        · rw [if_neg h0, if_neg h0,
            textChar_eq_spec _ (Nat.one_le_iff_ne_zero.mpr h0), ih]

lemma textChar_not_whitespace (v : ℕ) (c : Char) (h : textChar v = some c) :
    c.isWhitespace = false := by
  have hv : v ≤ 42 := by
    by_contra hv
    simp only [textChar,
      if_neg (by omega : ¬ v ≤ 26), if_neg (by omega : ¬ v ≤ 36),
      if_neg (by omega : ¬ v = 32), if_neg (by omega : ¬ v = 37),
      if_neg (by omega : ¬ v = 38), if_neg (by omega : ¬ v = 39),
      if_neg (by omega : ¬ v = 40), if_neg (by omega : ¬ v = 41),
      if_neg (by omega : ¬ v = 42)] at h
    exact Option.noConfusion h
  interval_cases v <;> simp_all [textChar] <;> simp [← h]

lemma decodeTextGo_no_whitespace (k : ℕ) : ∀ (bs : Bits) (c : Char),
    c ∈ decodeTextGo k bs → c.isWhitespace = false := by
  induction k with
  | zero => intro bs c h; simp [decodeTextGo] at h
  | succ k ih =>
      intro bs c h
      simp only [decodeTextGo] at h
      by_cases h6 : bs.length < 6
      · simp [h6] at h
      · rw [if_neg h6] at h
        by_cases h0 : bitsToNat (bs.take 6) = 0
        · simp [h0] at h
        · rw [if_neg h0] at h
          rcases List.mem_append.mp h with h | h
          · cases hc : textChar (bitsToNat (bs.take 6)) with
            | none => rw [hc] at h; simp at h
            | some c' =>
                rw [hc] at h
                simp only [List.mem_singleton] at h
                subst h
                exact textChar_not_whitespace _ _ hc
          · exact ih _ _ h

lemma stripChars_eq_rstrip (cs : List Char)
    (h : ∀ c ∈ cs, c.isWhitespace = false) :
    stripChars cs = rstripChars cs := by
  unfold stripChars rstripChars
  have hd : cs.dropWhile Char.isWhitespace = cs := by
    cases cs with
    | nil => rfl
    | cons a l =>
        rw [List.dropWhile_cons, if_neg]
        simp [h a (List.mem_cons_self a l)]
  rw [hd]

/-- C7 (amended): the text decoder scans successive 6-bit groups left to
right, stops at the first group of value 0, maps 1–26 to `'A'..'Z'` and
27–36 to `'0'..'9'` (so 32 becomes `'5'`; the source's space branch is
dead), maps 37–42 to the six symbols `'@'`, `'['`, backslash, `']'`,
`'^'`, `'_'`, skips every other value, and the result equals the
spec-worded scan right-trimmed of trailing whitespace. -/
theorem decode_text_matches_spec_scan :
    ∀ bs : Bits, decodeText bs = decodeTextSpec bs := by
  intro bs
  unfold decodeText decodeTextSpec decodeTextList
  rw [← decodeTextGo_eq_spec,
    stripChars_eq_rstrip _ (fun c hc => decodeTextGo_no_whitespace _ _ _ hc)]

set_option maxRecDepth 4000 in
/-- C1 counterexample: a structurally complete 168-bit position report
whose latitude field holds the sentinel (and whose longitude decodes to
an in-range 0°) is rejected outright — the decoder returns no record at
all, rather than a record with the latitude absent. -/
theorem sentinel_latitude_whole_report_rejected :
    c1Bits.length = 168 ∧ field c1Bits 89 116 = 0x3412140 ∧
    decodeLat (field c1Bits 89 116) = none ∧
    parsePositionReport c1Bits 0 1 = none := by decide

/-- C1 (amended): for every position-report bitstream of at least 168
bits, if either decoded coordinate is the sentinel or falls outside
±90°/±180° after wraparound correction, the decoder rejects the whole
message and returns no record; it never returns a report with the
affected coordinate absent. -/
theorem position_decoder_rejects_unusable_coordinates :
    ∀ (bs : Bits) (t : ℚ) (mt : ℕ), 168 ≤ bs.length →
      (decodeLat (field bs 89 116) = none ∨ decodeLon (field bs 61 89) = none ∨
        (∃ l, decodeLat (field bs 89 116) = some l ∧ 90 < |l|) ∨
        (∃ l, decodeLon (field bs 61 89) = some l ∧ 180 < |l|)) →
      parsePositionReport bs t mt = none := by
  intro bs t mt hlen h
  simp only [parsePositionReport, if_neg (by omega : ¬ bs.length < 168)]
  cases hLat : decodeLat (field bs 89 116) with
  | none => rfl
  | some la =>
      cases hLon : decodeLon (field bs 61 89) with
      | none => rfl
      | some lo =>
          rcases h with h | h | ⟨l, hl, habs⟩ | ⟨l, hl, habs⟩
          · exact absurd hLat (by rw [h]; exact Option.noConfusion)
          · exact absurd hLon (by rw [h]; exact Option.noConfusion)
          · rw [hl] at hLat
            cases hLat
            simp [habs]
          · rw [hl] at hLon
            cases hLon
            simp [habs]

set_option maxRecDepth 4000 in
theorem position_decoder_rejects_unusable_coordinates_witness :
    168 ≤ c1Bits.length ∧ decodeLat (field c1Bits 89 116) = none ∧
    parsePositionReport c1Bits 7 2 = none :=
  ⟨by decide, by decide,
    position_decoder_rejects_unusable_coordinates c1Bits 7 2 (by decide)
      (Or.inl (by decide))⟩

/-- C9: the dead-reckoning estimator with zero speed returns exactly the
starting position for any positive elapsed time; it takes the flat-earth
branch exactly when the computed distance `sog · 1.852 / 3600 · t` (km)
is below 100, and the great-circle formula with Earth radius 6371 km when
the distance is 100 km or more. -/
theorem dead_reckoning_zero_speed_and_branch_selection :
    (∀ lat1 lon1 cog t : ℝ, 0 < t →
      calculate_position lat1 lon1 0 cog t = (lat1, lon1)) ∧
    (∀ lat1 lon1 sog cog t : ℝ, sog * 1.852 / 3600.0 * t < 100 →
      calculate_position lat1 lon1 sog cog t =
        (lat1 + sog * 1.852 / 3600.0 * t * Real.cos (radians cog) / 111.0,
          lon1 + sog * 1.852 / 3600.0 * t * Real.sin (radians cog) /
            (111.0 * Real.cos (radians lat1)))) ∧
    (∀ lat1 lon1 sog cog t : ℝ, 100 ≤ sog * 1.852 / 3600.0 * t →
      calculate_position lat1 lon1 sog cog t =
        haversineCalculate lat1 lon1 (sog * 1.852 / 3600.0 * t) cog) := by
  refine ⟨?_, ?_, ?_⟩
  · intro lat1 lon1 cog t _
    simp [calculate_position]
  · intro lat1 lon1 sog cog t h
    simp only [calculate_position]
    rw [if_pos h]
  · intro lat1 lon1 sog cog t h
    simp only [calculate_position]
    rw [if_neg (not_lt.mpr h)]

theorem dead_reckoning_zero_speed_and_branch_selection_witness :
    ((0 : ℝ) < 1 ∧ calculate_position 2 3 0 7 1 = (2, 3)) ∧
    ((0 : ℝ) * 1.852 / 3600.0 * 1 < 100 ∧
      calculate_position 2 3 0 7 1 =
        (2 + 0 * 1.852 / 3600.0 * 1 * Real.cos (radians 7) / 111.0,
          3 + 0 * 1.852 / 3600.0 * 1 * Real.sin (radians 7) /
            (111.0 * Real.cos (radians 2)))) ∧
    ((100 : ℝ) ≤ 1000 * 1.852 / 3600.0 * 3600 ∧
      calculate_position 2 3 1000 7 3600 =
        haversineCalculate 2 3 (1000 * 1.852 / 3600.0 * 3600) 7) :=
  ⟨⟨by norm_num,
      dead_reckoning_zero_speed_and_branch_selection.1 2 3 7 1 (by norm_num)⟩,
    ⟨by norm_num,
      dead_reckoning_zero_speed_and_branch_selection.2.1 2 3 0 7 1 (by norm_num)⟩,
    ⟨by norm_num,
      dead_reckoning_zero_speed_and_branch_selection.2.2 2 3 1000 7 3600
        (by norm_num)⟩⟩

lemma parsePositionReport_coords {bs : Bits} {t : ℚ} {mt : ℕ}
    {r : PositionReport} (h : parsePositionReport bs t mt = some r) :
    r.lat.isSome ∧ r.lon.isSome := by
  simp only [parsePositionReport] at h
  split at h
  · exact absurd h (by simp)
  · split at h
    · split at h
      · exact absurd h (by simp)
      · cases h
        simp
    · exact absurd h (by simp)

lemma parseAisMessage_pos_coords {s : String} {t : ℚ} {r : PositionReport}
    (h : parseAisMessage s t = some (.pos r)) :
    r.lat.isSome ∧ r.lon.isSome := by
  simp only [parseAisMessage] at h
  split at h
  · exact absurd h (by simp)
  · split at h
    · rcases Option.map_eq_some'.mp h with ⟨r', hr', heq⟩
      cases heq
      exact parsePositionReport_coords hr'
    · split at h
      · rcases Option.map_eq_some'.mp h with ⟨s', _, heq⟩
        exact Parsed.noConfusion heq
      · exact absurd h (by simp)

lemma trackStep_full_fix_not_dr {st : TrackState} {r : PositionReport}
    {pt : TrackPoint} (hlat : r.lat.isSome) (hlon : r.lon.isSome)
    (h : (trackStep st (.pos r)).2 = some pt) :
    pt.is_dead_reckoned = false := by
  obtain ⟨a, ha⟩ := Option.isSome_iff_exists.mp hlat
  obtain ⟨b, hb⟩ := Option.isSome_iff_exists.mp hlon
  simp only [trackStep, ha, hb] at h
  cases h
  rfl

/-- C2: every record emitted by the end-to-end pipeline has
`is_dead_reckoned = false`, for every input sequence of extracted
(payload, capture-timestamp) lines: the position decoder never releases a
report with a missing coordinate, so the dead-reckoning branch of the
track reconstructor is unreachable through the full pipeline. -/
theorem pipeline_emits_no_dead_reckoned_points (inputs : List (String × ℚ)) :
    ((processAisLog inputs).all fun pt => !pt.is_dead_reckoned) = true := by
  rw [List.all_eq_true]
  have key : ∀ (l : List (String × ℚ)) (acc : TrackState × List TrackPoint),
      (∀ pt ∈ acc.2, pt.is_dead_reckoned = false) →
      ∀ pt ∈ (l.foldl logStep acc).2, pt.is_dead_reckoned = false := by
    intro l
    induction l with
    | nil => intro acc hacc; simpa using hacc
    | cons inp rest ih =>
        intro acc hacc
        rw [List.foldl_cons]
        apply ih
        intro pt hpt
        simp only [logStep] at hpt
        cases hp : parseAisMessage inp.1 inp.2 with
        | none =>
            rw [hp] at hpt
            exact hacc pt hpt
        | some p =>
            rw [hp] at hpt
            rcases List.mem_append.mp hpt with h | h
            · exact hacc pt h
            · rw [Option.mem_toList, Option.mem_def] at h
              cases p with
              | static s => simp [trackStep] at h
              | pos r =>
                  obtain ⟨hlat, hlon⟩ := parseAisMessage_pos_coords hp
                  exact trackStep_full_fix_not_dr hlat hlon h
  intro pt hpt
  simp [key inputs (initState, []) (by simp) pt hpt]

lemma trackStep_missing_none {st : TrackState} {r : PositionReport}
    (h : r.lat = none ∨ r.lon = none)
    (hlp : st.lastPos r.mmsi = none) :
    trackStep st (.pos r) = (st, none) := by
  rcases hlat : r.lat with _ | a <;> rcases hlon : r.lon with _ | b
  · simp [trackStep, hlat, hlon, hlp]
  · simp [trackStep, hlat, hlon, hlp]
  · simp [trackStep, hlat, hlon, hlp]
  · rw [hlat, hlon] at h
    rcases h with h | h <;> exact Option.noConfusion h

lemma trackStep_missing_stale {st : TrackState} {r : PositionReport}
    {lp : LastPos} (h : r.lat = none ∨ r.lon = none)
    (hlp : st.lastPos r.mmsi = some lp)
    (hc : ¬ (0 < r.timestamp - lp.timestamp ∧
      r.timestamp - lp.timestamp < 3600)) :
    trackStep st (.pos r) = (st, none) := by
  rcases hlat : r.lat with _ | a <;> rcases hlon : r.lon with _ | b
  · simp only [trackStep, hlat, hlon, hlp]
    rw [if_neg hc]
  · simp only [trackStep, hlat, hlon, hlp]
    rw [if_neg hc]
  · simp only [trackStep, hlat, hlon, hlp]
    rw [if_neg hc]
  · rw [hlat, hlon] at h
    rcases h with h | h <;> exact Option.noConfusion h

lemma trackStep_missing_fresh {st : TrackState} {r : PositionReport}
    {lp : LastPos} (h : r.lat = none ∨ r.lon = none)
    (hlp : st.lastPos r.mmsi = some lp)
    (hc : 0 < r.timestamp - lp.timestamp ∧
      r.timestamp - lp.timestamp < 3600) :
    trackStep st (.pos r) =
      ({ st with
          lastPos := fun m =>
            if m = r.mmsi then
              some { lat := (calculate_position lp.lat lp.lon (lp.sog : ℝ)
                        (lp.cog : ℝ) ((r.timestamp - lp.timestamp : ℚ) : ℝ)).1
                     lon := (calculate_position lp.lat lp.lon (lp.sog : ℝ)
                        (lp.cog : ℝ) ((r.timestamp - lp.timestamp : ℚ) : ℝ)).2
                     sog := if r.sog > 0 then r.sog else lp.sog
                     cog := if r.cog ≥ 0 then r.cog else lp.cog
                     timestamp := r.timestamp }
            else st.lastPos m },
        some
          { timestamp := r.timestamp
            mmsi := r.mmsi
            ship_type := ((st.staticData r.mmsi).map StaticVoyage.ship_type).getD 0
            ship_type_name := (st.staticData r.mmsi).map StaticVoyage.ship_type_name
            vessel_name := (st.staticData r.mmsi).map StaticVoyage.vessel_name
            lat := (calculate_position lp.lat lp.lon (lp.sog : ℝ)
              (lp.cog : ℝ) ((r.timestamp - lp.timestamp : ℚ) : ℝ)).1
            lon := (calculate_position lp.lat lp.lon (lp.sog : ℝ)
              (lp.cog : ℝ) ((r.timestamp - lp.timestamp : ℚ) : ℝ)).2
            sog := if r.sog > 0 then r.sog else lp.sog
            cog := if r.cog ≥ 0 then r.cog else lp.cog
            nav_status := r.nav_status
            position_accuracy := r.position_accuracy
            true_heading := r.true_heading
            is_dead_reckoned := true }) := by
  rcases hlat : r.lat with _ | a <;> rcases hlon : r.lon with _ | b
  · simp [trackStep, hlat, hlon, hlp, hc]
  · simp [trackStep, hlat, hlon, hlp, hc]
  · simp [trackStep, hlat, hlon, hlp, hc]
  · rw [hlat, hlon] at h
    rcases h with h | h <;> exact Option.noConfusion h

lemma missingFixBehavior_of_missing (st : TrackState) (r : PositionReport)
    (h : r.lat = none ∨ r.lon = none) : missingFixBehavior st r := by
  unfold missingFixBehavior
  cases hlp : st.lastPos r.mmsi with
  | none =>
      have he := trackStep_missing_none h hlp
      refine ⟨?_, fun _ => he, ?_⟩
      · constructor
        · rintro ⟨pt, hpt, -⟩
          rw [he] at hpt
          exact Option.noConfusion hpt
        · rintro ⟨lp, hlp', -⟩
          rw [hlp] at hlp'
          exact Option.noConfusion hlp'
      · intro lp hlp' _ _
        exact Option.noConfusion hlp'
  | some lp =>
      by_cases hc : 0 < r.timestamp - lp.timestamp ∧
          r.timestamp - lp.timestamp < 3600
      · have he := trackStep_missing_fresh h hlp hc
        refine ⟨?_, fun hn => absurd ⟨lp, hlp, hc.1, hc.2⟩ hn, ?_⟩
        · refine ⟨fun _ => ⟨lp, hlp, hc.1, hc.2⟩, fun _ => ?_⟩
          rw [he]
          exact ⟨_, rfl, rfl⟩
        · intro lp' hlp' h1 h2
          cases hlp'
          rw [he]
          simp
      · have he := trackStep_missing_stale h hlp hc
        refine ⟨?_, fun _ => he, ?_⟩
        · constructor
          · rintro ⟨pt, hpt, -⟩
            rw [he] at hpt
            exact Option.noConfusion hpt
          · rintro ⟨lp', hlp', h1, h2⟩
            rw [hlp] at hlp'
            cases hlp'
            exact absurd ⟨h1, h2⟩ hc
        · intro lp' hlp' h1 h2
          cases hlp'
          exact absurd ⟨h1, h2⟩ hc

lemma c3s0_lastPos :
    c3s0.lastPos 999 =
      some { lat := ((10 : ℚ) : ℝ), lon := ((20 : ℚ) : ℝ), sog := 5,
             cog := 45, timestamp := 0 } := by
  simp [c3s0, trackStep, c3r0, initState]

lemma c3Scenario_holds : c3Scenario := by
  have hmiss1 : c3r1.lat = none ∨ c3r1.lon = none := Or.inl rfl
  have hmmsi1 : c3r1.mmsi = 999 := rfl
  have hlp0 : c3s0.lastPos c3r1.mmsi =
      some { lat := ((10 : ℚ) : ℝ), lon := ((20 : ℚ) : ℝ), sog := 5,
             cog := 45, timestamp := 0 } := by
    rw [hmmsi1, c3s0_lastPos]
  have hc1 : (0 : ℚ) < c3r1.timestamp - (0 : ℚ) ∧
      c3r1.timestamp - (0 : ℚ) < 3600 := by
    constructor <;> norm_num [c3r1, c3r0]
  have he1 := trackStep_missing_fresh hmiss1 hlp0 hc1
  constructor
  · rw [he1]
    exact ⟨_, rfl, rfl⟩
  · have hs1 : c3s1.lastPos 999 =
        some { lat := (calculate_position ((10 : ℚ) : ℝ) ((20 : ℚ) : ℝ)
                  ((5 : ℚ) : ℝ) ((45 : ℚ) : ℝ)
                  ((c3r1.timestamp - (0 : ℚ) : ℚ) : ℝ)).1
               lon := (calculate_position ((10 : ℚ) : ℝ) ((20 : ℚ) : ℝ)
                  ((5 : ℚ) : ℝ) ((45 : ℚ) : ℝ)
                  ((c3r1.timestamp - (0 : ℚ) : ℚ) : ℝ)).2
               sog := if c3r1.sog > 0 then c3r1.sog else (5 : ℚ)
               cog := if c3r1.cog ≥ 0 then c3r1.cog else (45 : ℚ)
               timestamp := c3r1.timestamp } := by
      show (trackStep c3s0 (.pos c3r1)).1.lastPos 999 = _
      rw [he1]
      simp [hmmsi1]
    apply trackStep_missing_stale (Or.inl rfl) hs1
    rintro ⟨h1, h2⟩
    norm_num [c3r1, c3r2, c3r0] at h2

/-- C3: on a position report lacking a usable fix, the track
reconstructor emits a dead-reckoned point (and rewrites the stored state
with the estimated position, carried-forward speed/course and the new
timestamp) if and only if a last position is stored for the vessel and
the elapsed time lies strictly between 0 and 3600 seconds; otherwise the
report is dropped and the state is untouched.  In particular, for the
three-report sequence [t0 full fix, t1 = +300 s missing, t2 = +4000 s
missing], t1 yields a dead-reckoned point and t2 yields nothing with the
state unchanged. -/
theorem missing_fix_dead_reckoning_iff_recent_state :
    (∀ (st : TrackState) (r : PositionReport),
      r.lat = none ∨ r.lon = none → missingFixBehavior st r) ∧
    c3Scenario :=
  ⟨missingFixBehavior_of_missing, c3Scenario_holds⟩

theorem missing_fix_dead_reckoning_iff_recent_state_witness :
    (c3r1.lat = none ∨ c3r1.lon = none) ∧ missingFixBehavior c3s0 c3r1 :=
  ⟨Or.inl rfl,
    missing_fix_dead_reckoning_iff_recent_state.1 c3s0 c3r1 (Or.inl rfl)⟩

end AIS
